import Mathlib

/-!
Verification of the yield-change calculation pipeline
(src/experimental/1_yield_change_calculation_downscaled.py).

Shallow embedding conventions:
- floating point numbers are modelled by the rationals;
- NaN is modelled by the value none of Option, since every NaN in this
  program arises as an explicit sentinel (np.nan) or as a skipped missing
  value, never from float arithmetic on finite inputs;
- an xarray Dataset or DataArray is modelled by a record holding the parts
  of the object the embedded code inspects;
- a Python exception is modelled by Except, and a try/except handler by a
  match on the Except value.
-/

namespace YieldChange

/-- Python float remainder, x % y for y positive: x - y * floor (x / y).
Used to model the expression (lon + 180) % 360 in fix_longitude. -/
def pymod (x y : ℚ) : ℚ := x - y * (⌊x / y⌋ : ℤ)

/-- The longitude correction applied to each coordinate by fix_longitude:
lon maps to ((lon + 180) % 360) - 180. -/
def normLon (lon : ℚ) : ℚ := pymod (lon + 180) 360 - 180

/-- Ordering of longitude slices by their longitude coordinate; this is the
key relation of the sortby call in fix_longitude. -/
def lonLe {α : Type} (a b : ℚ × α) : Prop := a.1 ≤ b.1

instance {α : Type} : DecidableRel (lonLe (α := α)) :=
  fun a b => inferInstanceAs (Decidable (a.1 ≤ b.1))

instance {α : Type} : IsTotal (ℚ × α) lonLe := ⟨fun a b => le_total a.1 b.1⟩

instance {α : Type} : IsTrans (ℚ × α) lonLe := ⟨fun _ _ _ h1 h2 => le_trans h1 h2⟩

/-- Embedding of fix_longitude (source lines 66-77): a dataset is viewed as
its list of longitude slices, each a longitude coordinate paired with the
data lying at that longitude.  The function rewrites every longitude by
normLon and then sorts the slices by longitude with a stable sort, which is
what xarray sortby does. -/
def fix_longitude {α : Type} (ds : List (ℚ × α)) : List (ℚ × α) :=
  (ds.map (fun p => (normLon p.1, p.2))).insertionSort lonLe

/-- Embedding of calculate_percentage_change (source lines 262-277).
The np.nan result is modelled as none. -/
def calculate_percentage_change (total_yield_value reference_yield_value : ℚ) : Option ℚ :=
  if reference_yield_value > 0 then
    some (100 * (total_yield_value - reference_yield_value) / reference_yield_value)
  else
    none

/-- Model of the pandas SeriesGroupBy.mean reduction used in process_yields
(source line 382).  The pandas documentation states that mean computes the
mean of the groups, excluding missing values: NaN entries (here none) are
dropped before averaging, and the result is NaN only when no value remains. -/
def pandasGroupMean (xs : List (Option ℚ)) : Option ℚ :=
  match xs.filterMap id with
  | [] => none
  | v :: vs => some (((v :: vs).sum) / ((v :: vs).length : ℚ))

/-- One row of the year-percentage-changes table built in process_yields:
a country name, an ISO code, and the percentage change of one control
realization (none when that change is NaN). -/
structure ChangeRecord where
  country : String
  iso : String
  change : Option ℚ
deriving DecidableEq, Inhabited

/-- Embedding of the realization-averaging step of process_yields (source
lines 377-382): the records of one (group, year) are grouped by country and
ISO code, and the percentage changes of each group are reduced with the
pandas mean. -/
def averageChangesFor (records : List ChangeRecord) (country iso : String) : Option ℚ :=
  pandasGroupMean
    (((records.filter (fun r => r.country == country && r.iso == iso)).map (fun r => r.change)))

/-- A raster grid: latitude coordinates, longitude coordinates, the value at
each (lat, lon) cell as a list of rows (one row per latitude), and an
optional CRS recorded by its EPSG code. -/
structure Grid where
  lats : List ℚ
  lons : List ℚ
  vals : List (List ℚ)
  crs : Option Nat
deriving DecidableEq, Inhabited

/-- Sum of every value of a grid, as computed by DataArray.sum. -/
def gridSum (g : Grid) : ℚ := (g.vals.map List.sum).sum

/-- Replication of each entry of a row k times: the effect along one axis of
a nearest-neighbor reprojection at 1/k the cell size. -/
def repRow (k : Nat) (row : List ℚ) : List ℚ := (row.map (fun v => List.replicate k v)).flatten

/-- Nearest-neighbor refinement of the value array by a factor k along both
axes: each cell becomes a k by k block holding the original value, which is
what Resampling.nearest produces when the target lattice subdivides every
source cell into k by k sub-cells. -/
def nnRefineVals (k : Nat) (vals : List (List ℚ)) : List (List ℚ) :=
  ((vals.map (repRow k)).map (fun r => List.replicate k r)).flatten

/-- The fine coordinate lattice produced by reprojecting an axis of cell size
delta at resolution delta / k: each coarse coordinate is replaced by the k
coordinates of its sub-cells. -/
def refineAxis (k : Nat) (delta : ℚ) (coords : List ℚ) : List ℚ :=
  (coords.map (fun c => (List.range k).map (fun j => c + (j : ℚ) * (delta / k)))).flatten

/-- First step of downscale_data (source lines 203-206): when the array has
no CRS, EPSG:4326 is written to it; an array that already carries a CRS is
left alone. -/
def writeDefaultCrs (data_array : Grid) : Grid :=
  if data_array.crs.isNone then { data_array with crs := some 4326 } else data_array

/-- Embedding of downscale_data (source lines 192-237, continued): the CRS
default is applied first, the sample counts of both axes are checked, the
cell sizes are read off the first two coordinates of each axis, the grid is
reprojected by nearest-neighbor resampling at 1/factor the cell size, and
every value is divided by factor squared. -/
def downscale_data (data_array : Grid) (factor : Nat) : Grid :=
  if (writeDefaultCrs data_array).lats.length < 2 ∨ (writeDefaultCrs data_array).lons.length < 2 then
    writeDefaultCrs data_array
  else
    { lats := refineAxis factor
        (|(writeDefaultCrs data_array).lats.getD 1 0 - (writeDefaultCrs data_array).lats.getD 0 0|)
        (writeDefaultCrs data_array).lats
      lons := refineAxis factor
        (|(writeDefaultCrs data_array).lons.getD 1 0 - (writeDefaultCrs data_array).lons.getD 0 0|)
        (writeDefaultCrs data_array).lons
      vals := (nnRefineVals factor (writeDefaultCrs data_array).vals).map
        (fun row => row.map (fun v => v / ((factor : ℚ) * factor)))
      crs := some 4326 }

/-- The one exception rio.clip raises in this pipeline. -/
inductive ClipError
  | noDataInBounds
deriving DecidableEq

/-- Whether any cell of the grid is touched by the geometry; rio.clip raises
NoDataInBounds exactly when no cell is touched.  A geometry is modelled by
its touch predicate on cell coordinates. -/
def gridIntersects (g : Grid) (touches : ℚ → ℚ → Bool) : Bool :=
  g.lats.any (fun la => g.lons.any (fun lo => touches la lo))

/-- Model of DataArray.rio.clip with drop=False and all_touched=True: cells
touched by the geometry keep their value, all remaining cells are masked to
the nodata value (represented as 0 here, since every downstream consumer of
a clipped grid reduces it with skipna=True); when no cell at all is touched
the call raises NoDataInBounds. -/
def rioClip (g : Grid) (touches : ℚ → ℚ → Bool) : Except ClipError Grid :=
  if gridIntersects g touches then
    Except.ok { g with vals :=
      (g.lats.zip g.vals).map (fun lr =>
        (g.lons.zip lr.2).map (fun lv => if touches lr.1 lv.1 then lv.2 else 0)) }
  else
    Except.error ClipError.noDataInBounds

/-- Embedding of clip_yield_to_country (source lines 240-259): the
NoDataInBounds exception is caught and replaced by a deep copy of the input
multiplied by zero.  The function is total, so no exception escapes it. -/
def clip_yield_to_country (yield_data : Grid) (country_geometry : ℚ → ℚ → Bool)
    (epsg_code : Nat) : Grid :=
  match rioClip yield_data country_geometry with
  | Except.ok clipped => clipped
  | Except.error ClipError.noDataInBounds =>
      { yield_data with vals := yield_data.vals.map (fun row => row.map (fun _ => 0)) }

/-- The failure modes of assign_crs, one per raise site of the source:
missingLatCoord is the KeyError of line 94, emptyLatReduce is the numpy
error raised when min is taken over an empty latitude array (lines 98 and
108), invalidLatitude is the ValueError of line 115, and missingSpatialDims
is the ValueError of line 126. -/
inductive AssignCrsError
  | missingLatCoord
  | emptyLatReduce
  | invalidLatitude
  | missingSpatialDims
deriving DecidableEq

deriving instance DecidableEq for Except

/-- The parts of an xarray DataArray that assign_crs inspects: the names of
its coordinates, the names of its dimensions, its rows (a latitude paired
with the values along the longitude axis), and the attached CRS. -/
structure DataArray where
  coords : List String
  dims : List String
  rows : List (ℚ × List ℚ)
  crs : Option Nat
deriving DecidableEq, Inhabited

/-- The latitude coordinate values of a data array. -/
def latList (da : DataArray) : List ℚ := da.rows.map (fun p => p.1)

/-- The where-drop of assign_crs (source line 106): rows whose latitude lies
outside the open interval (-90, 90) are removed; dimension and coordinate
names are untouched. -/
def dropInvalidLat (data_array : DataArray) : DataArray :=
  { data_array with
    rows := data_array.rows.filter (fun p => decide (-90 < p.1) && decide (p.1 < 90)) }

/-- The latitude validation of assign_crs (source lines 96-115): latitude
min and max are taken (numpy fails on an empty array); an invalid range
triggers one where-drop of the rows with lat outside the open interval
(-90, 90) followed by a single re-validation. -/
def validateLat (data_array : DataArray) : Except AssignCrsError DataArray :=
  match (latList data_array).min?, (latList data_array).max? with
  | some min_lat, some max_lat =>
    if min_lat ≤ -90 ∨ 90 ≤ max_lat then
      match (latList (dropInvalidLat data_array)).min?,
          (latList (dropInvalidLat data_array)).max? with
      | some min2, some max2 =>
        if min2 ≤ -90 ∨ 90 ≤ max2 then Except.error AssignCrsError.invalidLatitude
        else Except.ok (dropInvalidLat data_array)
      | _, _ => Except.error AssignCrsError.emptyLatReduce
    else Except.ok data_array
  | _, _ => Except.error AssignCrsError.emptyLatReduce

/-- Embedding of assign_crs (source lines 80-146): the KeyError check on the
coordinate names, then latitude validation, then the check that lat and lon
are both dimensions; on success the EPSG code is attached without altering
any value. -/
def assign_crs (data_array : DataArray) (epsg_code : Nat) : Except AssignCrsError DataArray :=
  if "lat" ∉ data_array.coords then Except.error AssignCrsError.missingLatCoord
  else
    match validateLat data_array with
    | Except.error e => Except.error e
    | Except.ok da3 =>
      if "lat" ∉ da3.dims ∨ "lon" ∉ da3.dims then
        Except.error AssignCrsError.missingSpatialDims
      else Except.ok { da3 with crs := some epsg_code }

/-- Whether the latitude range of a data array is strictly inside the open
interval (-90, 90), the condition under which assign_crs skips its repair
branch. -/
def latRangeValid (da : DataArray) : Bool :=
  match (latList da).min?, (latList da).max? with
  | some mn, some mx => decide (-90 < mn) && decide (mx < 90)
  | _, _ => false

/-- What process_scenario observes about one crop/grass file pair: whether
the crop dataset and the grass dataset expose a yield variable. -/
structure PairFlags where
  cropHasYield : Bool
  grassHasYield : Bool
deriving DecidableEq, Inhabited

/-- The inputs of process_scenario that drive its control flow: the zipped
list of crop/grass file pairs, and whether every control crop dataset and
every control grass dataset exposes a yield variable. -/
structure ScenarioInput where
  pairs : List PairFlags
  controlCropsHaveYield : Bool
  controlGrassesHaveYield : Bool
deriving DecidableEq, Inhabited

/-- What one iteration of the pair loop did: whether the crop track ran,
whether the grass track ran, and whether the per-pair CSV was written. -/
structure PairTrace where
  cropProcessed : Bool
  grassProcessed : Bool
  pairCsvWritten : Bool
deriving DecidableEq, Inhabited

/-- One iteration of the pair loop of process_scenario (source lines
441-487): when the crop dataset or a crop control dataset lacks the yield
variable the iteration continues to the next pair at once, so the grass
track does not run; when the crop track ran but the grass check fails the
iteration also continues, without writing the per-pair CSV; only when both
tracks ran is the merged CSV written and the result appended. -/
def processPair (controlCropsOk controlGrassesOk : Bool) (p : PairFlags) : PairTrace :=
  if p.cropHasYield && controlCropsOk then
    if p.grassHasYield && controlGrassesOk then
      { cropProcessed := true, grassProcessed := true, pairCsvWritten := true }
    else
      { cropProcessed := true, grassProcessed := false, pairCsvWritten := false }
  else
    { cropProcessed := false, grassProcessed := false, pairCsvWritten := false }

/-- Embedding of the pair loop of process_scenario (source lines 414-496),
reduced to the trace of what each pair did. -/
def process_scenario (s : ScenarioInput) : List PairTrace :=
  s.pairs.map (processPair s.controlCropsHaveYield s.controlGrassesHaveYield)

/-- Number of entries of combined_results at the end of process_scenario:
one per pair whose merged CSV was written. -/
def combinedResultsCount (s : ScenarioInput) : Nat :=
  (process_scenario s).countP (fun t => t.pairCsvWritten)

/-- Embedding of the aggregation guard of process_scenario (source lines
489-496): the aggregated CSV is written exactly when combined_results holds
more than one table. -/
def aggregatedCsvWritten (s : ScenarioInput) : Bool :=
  decide (1 < combinedResultsCount s)

/-- Embedding of the scenario loop of main (source line 533): only the
scenarios from index 5 on are handed to process_scenario. -/
def mainProcessedScenarios (scenarios : List ScenarioInput) : List ScenarioInput :=
  scenarios.drop 5

/-- Total number of CSV files main writes: each processed scenario writes
one CSV per successful pair plus the aggregated CSV when due. -/
def mainCsvCount (scenarios : List ScenarioInput) : Nat :=
  ((mainProcessedScenarios scenarios).map
    (fun s => combinedResultsCount s + (if aggregatedCsvWritten s then 1 else 0))).sum

/-- A degenerate CRS-less grid with a single latitude sample, exercising the
early-return branch of downscale_data. -/
def degenerateGrid : Grid := { lats := [0], lons := [0, 1], vals := [[3, 4]], crs := none }

/-- A data array whose latitude coordinate and dimension are present and
valid but which has no longitude dimension. -/
def lonlessDataArray : DataArray :=
  { coords := ["lat"], dims := ["lat"], rows := [(0, [1]), (10, [2])], crs := none }

/-- A data array with both spatial dimensions and valid latitudes. -/
def goodDataArray : DataArray :=
  { coords := ["lat", "lon"], dims := ["lat", "lon"], rows := [(0, [1, 2]), (10, [3, 4])],
    crs := none }

/-- A data array with one row at the south pole, which the where-drop of
assign_crs removes, leaving a valid nonempty remainder. -/
def repairDataArray : DataArray :=
  { coords := ["lat", "lon"], dims := ["lat", "lon"],
    rows := [(-90, [1, 2]), (0, [3, 4]), (10, [5, 6])], crs := none }

/-- A data array whose latitudes are all invalid, so the where-drop of
assign_crs leaves nothing. -/
def allInvalidDataArray : DataArray :=
  { coords := ["lat", "lon"], dims := ["lat", "lon"],
    rows := [(-95, [1]), (95, [2])], crs := none }

/-- A scenario with a single pair whose crop dataset lacks the yield
variable while its grass dataset has one. -/
def cropFailScenario : ScenarioInput :=
  { pairs := [{ cropHasYield := false, grassHasYield := true }],
    controlCropsHaveYield := true, controlGrassesHaveYield := true }

/-- A small two-by-two grid used to witness mass preservation. -/
def massGrid : Grid :=
  { lats := [0, 1], lons := [0, 1], vals := [[1, 2], [3, 4]], crs := some 4326 }

/-- A degenerate grid that already carries a CRS. -/
def degenerateTaggedGrid : Grid :=
  { lats := [0], lons := [0, 1], vals := [[3, 4]], crs := some 6933 }

/-- A small grid used to witness clipping behavior. -/
def clipGrid : Grid :=
  { lats := [0, 1], lons := [0], vals := [[7], [9]], crs := some 6933 }

/-- A geometry touching no cell at all. -/
def emptyTouch : ℚ → ℚ → Bool := fun _ _ => false

/-! Helper lemmas. -/

/-- Python remainder by 360 is nonnegative. -/
theorem pymod_360_nonneg (x : ℚ) : 0 ≤ pymod x 360 := by
  have h1 : ((⌊x / 360⌋ : ℚ)) ≤ x / 360 := Int.floor_le _
  have h2 : (360 : ℚ) * (⌊x / 360⌋ : ℚ) ≤ 360 * (x / 360) :=
    mul_le_mul_of_nonneg_left h1 (by norm_num)
  have h3 : (360 : ℚ) * (x / 360) = x := by ring
  unfold pymod
  linarith

/-- Python remainder by 360 is below 360. -/
theorem pymod_360_lt (x : ℚ) : pymod x 360 < 360 := by
  have h1 : x / 360 - 1 < ((⌊x / 360⌋ : ℚ)) := Int.sub_one_lt_floor _
  have h2 : (360 : ℚ) * (x / 360 - 1) < 360 * (⌊x / 360⌋ : ℚ) :=
    mul_lt_mul_of_pos_left h1 (by norm_num)
  have h3 : (360 : ℚ) * (x / 360) = x := by ring
  unfold pymod
  linarith

/-- Every corrected longitude lies in the interval from -180 inclusive to
180 exclusive. -/
theorem normLon_mem_range (x : ℚ) : -180 ≤ normLon x ∧ normLon x < 180 := by
  unfold normLon
  constructor
  · have := pymod_360_nonneg (x + 180)
    linarith
  · have := pymod_360_lt (x + 180)
    linarith

/-- The longitude correction fixes every longitude already in its range. -/
theorem normLon_eq_self {x : ℚ} (h1 : -180 ≤ x) (h2 : x < 180) : normLon x = x := by
  have hfl : ⌊(x + 180) / 360⌋ = 0 := by
    rw [Int.floor_eq_zero_iff]
    constructor
    · apply div_nonneg <;> linarith
    · rw [div_lt_one (by norm_num : (0 : ℚ) < 360)]
      linarith
  unfold normLon pymod
  rw [hfl]
  push_cast
  ring

/-- The longitude correction is idempotent on values. -/
theorem normLon_normLon (x : ℚ) : normLon (normLon x) = normLon x :=
  normLon_eq_self (normLon_mem_range x).1 (normLon_mem_range x).2

/-- Mapping a function that fixes every element of a list is the identity. -/
theorem map_eq_self_of_mem {α : Type} {f : α → α} {l : List α}
    (h : ∀ x ∈ l, f x = x) : l.map f = l := by
  induction l with
  | nil => rfl
  | cons a t ih =>
    rw [List.map_cons, h a (List.mem_cons_self a t), ih fun x hx => h x (List.mem_cons_of_mem a hx)]

/-- Every slice of a corrected dataset has a corrected longitude. -/
theorem mem_fix_longitude {α : Type} {ds : List (ℚ × α)} {p : ℚ × α}
    (h : p ∈ fix_longitude ds) : ∃ q ∈ ds, (normLon q.1, q.2) = p := by
  unfold fix_longitude at h
  rw [List.mem_insertionSort] at h
  exact List.mem_map.mp h

/-- The pandas mean of a group is NaN exactly when every grouped value is
NaN, because NaN entries are excluded before averaging. -/
theorem pandasGroupMean_eq_none_iff (xs : List (Option ℚ)) :
    pandasGroupMean xs = none ↔ ∀ x ∈ xs, x = none := by
  unfold pandasGroupMean
  rcases h : xs.filterMap id with _ | ⟨v, vs⟩
  · simp only [List.filterMap_eq_nil_iff, id] at h
    simpa using h
  · have hv : v ∈ xs.filterMap id := by rw [h]; exact List.mem_cons_self v vs
    rcases List.mem_filterMap.mp hv with ⟨a, ha, hav⟩
    simp only [id] at hav
    subst hav
    constructor
    · intro hc
      exact absurd hc (by simp)
    · intro hall
      exact absurd (hall _ ha) (by simp)

/-- Replicating every entry of a row k times multiplies its sum by k. -/
theorem sum_repRow (k : Nat) (row : List ℚ) : (repRow k row).sum = k * row.sum := by
  induction row with
  | nil => simp [repRow]
  | cons v t ih =>
    show (List.replicate k v ++ repRow k t).sum = _
    rw [List.sum_append, ih, List.sum_replicate, nsmul_eq_mul, List.sum_cons]
    ring

/-- Nearest-neighbor refinement by k along both axes multiplies the total by
k squared. -/
theorem rowSums_nnRefine (k : Nat) (vals : List (List ℚ)) :
    ((nnRefineVals k vals).map List.sum).sum = (k : ℚ) * k * ((vals.map List.sum).sum) := by
  induction vals with
  | nil => simp [nnRefineVals]
  | cons row rest ih =>
    show ((List.replicate k (repRow k row) ++ nnRefineVals k rest).map List.sum).sum = _
    rw [List.map_append, List.sum_append, ih, List.map_replicate, List.sum_replicate,
      nsmul_eq_mul, sum_repRow, List.map_cons, List.sum_cons]
    ring

/-- Dividing every entry of a row by c divides its sum by c. -/
theorem sum_map_div (c : ℚ) (row : List ℚ) : (row.map (fun v => v / c)).sum = row.sum / c := by
  induction row with
  | nil => simp
  | cons v t ih => simp [ih, add_div]

/-- Dividing every value of a value array by c divides the total by c. -/
theorem scaled_rowSums (c : ℚ) (vals : List (List ℚ)) :
    ((vals.map (fun row => row.map (fun v => v / c))).map List.sum).sum
      = ((vals.map List.sum).sum) / c := by
  induction vals with
  | nil => simp
  | cons row rest ih => simp only [List.map_cons, List.sum_cons, ih, sum_map_div, add_div]

/-- Writing the default CRS leaves the latitude axis unchanged. -/
theorem writeDefaultCrs_lats (g : Grid) : (writeDefaultCrs g).lats = g.lats := by
  unfold writeDefaultCrs
  split <;> rfl

/-- Writing the default CRS leaves the longitude axis unchanged. -/
theorem writeDefaultCrs_lons (g : Grid) : (writeDefaultCrs g).lons = g.lons := by
  unfold writeDefaultCrs
  split <;> rfl

/-- Writing the default CRS leaves the values unchanged. -/
theorem writeDefaultCrs_vals (g : Grid) : (writeDefaultCrs g).vals = g.vals := by
  unfold writeDefaultCrs
  split <;> rfl

/-! Claim theorems. -/

/-- C1: calculate_percentage_change returns 100 * (scenario - control) /
control when the control total is positive and NaN when it is zero or
negative; in particular the change of any total against a zero control is
NaN and the change of a positive total against itself is zero. -/
theorem calculate_percentage_change_spec (s c : ℚ) :
    (0 < c → calculate_percentage_change s c = some (100 * (s - c) / c)) ∧
    (c ≤ 0 → calculate_percentage_change s c = none) ∧
    calculate_percentage_change s 0 = none ∧
    (0 < c → calculate_percentage_change c c = some 0) := by
  refine ⟨fun h => ?_, fun h => ?_, ?_, fun h => ?_⟩
  · simp [calculate_percentage_change, h]
  · simp [calculate_percentage_change, not_lt.mpr h]
  · simp [calculate_percentage_change]
  · simp [calculate_percentage_change, h]

/-- Witness for C1 at concrete totals. -/
theorem calculate_percentage_change_spec_witness :
    calculate_percentage_change 7 (-3) = none ∧ calculate_percentage_change 5 5 = some 0 :=
  ⟨(calculate_percentage_change_spec 7 (-3)).2.1 (by norm_num),
   (calculate_percentage_change_spec 5 5).2.2.2 (by norm_num)⟩

/-- C2 counterexample: with two control realizations for the same country,
one NaN and one equal to 5, the grouped pandas mean is 5, not NaN, so the
NaN is discarded rather than propagated by the realization-averaging step. -/
theorem realization_mean_drops_nan_cex :
    averageChangesFor
        [{ country := "A", iso := "AAA", change := none },
         { country := "A", iso := "AAA", change := some 5 }] "A" "AAA" = some 5 ∧
    (some 5 : Option ℚ) ≠ none := by
  constructor
  · have h1 : averageChangesFor
        [{ country := "A", iso := "AAA", change := none },
         { country := "A", iso := "AAA", change := some 5 }] "A" "AAA"
        = pandasGroupMean [none, some 5] := rfl
    rw [h1]
    simp [pandasGroupMean]
  · simp

/-- C2 amended: the per-country mean across the Control Set is NaN exactly
when the percentage change of every realization for that country is NaN;
a NaN from a single realization is excluded from the mean, not propagated. -/
theorem realization_mean_nan_iff (records : List ChangeRecord) (country iso : String) :
    averageChangesFor records country iso = none ↔
      ∀ r ∈ records, (r.country == country && r.iso == iso) = true → r.change = none := by
  unfold averageChangesFor
  rw [pandasGroupMean_eq_none_iff]
  constructor
  · intro h r hr hmatch
    exact h r.change (List.mem_map.mpr ⟨r, List.mem_filter.mpr ⟨hr, hmatch⟩, rfl⟩)
  · intro h x hx
    rcases List.mem_map.mp hx with ⟨r, hrf, rfl⟩
    rcases List.mem_filter.mp hrf with ⟨hr, hmatch⟩
    exact h r hr hmatch

/-- Witness for C2 amended: a country whose only realization is NaN has a
NaN mean. -/
theorem realization_mean_nan_iff_witness :
    averageChangesFor
        [{ country := "B", iso := "BBB", change := none },
         { country := "C", iso := "CCC", change := some 3 }] "B" "BBB" = none :=
  (realization_mean_nan_iff _ "B" "BBB").mpr (by decide)

/-- C5: the longitude correction of fix_longitude, wrapping each longitude
into the half-open interval from -180 to 180 and re-sorting by longitude, is
idempotent: applying it twice equals applying it once, for every dataset. -/
theorem fix_longitude_idempotent {α : Type} (ds : List (ℚ × α)) :
    fix_longitude (fix_longitude ds) = fix_longitude ds := by
  have hmap : (fix_longitude ds).map (fun p => (normLon p.1, p.2)) = fix_longitude ds := by
    apply map_eq_self_of_mem
    intro x hx
    rcases mem_fix_longitude hx with ⟨q, _, rfl⟩
    simp [normLon_normLon]
  show ((fix_longitude ds).map (fun p => (normLon p.1, p.2))).insertionSort lonLe
      = fix_longitude ds
  rw [hmap]
  have hs : List.Sorted lonLe (fix_longitude ds) := by
    unfold fix_longitude
    exact List.sorted_insertionSort lonLe _
  exact hs.insertionSort_eq

/-- C3: downscaling a grid with at least two samples along each axis by any
factor k of at least 2 preserves the total of all values exactly: the
nearest-neighbor refinement multiplies the total by k squared and the
division of every value by k squared cancels it. -/
theorem downscale_preserves_total (g : Grid) (k : Nat) (hk : 2 ≤ k)
    (hlat : 2 ≤ g.lats.length) (hlon : 2 ≤ g.lons.length) :
    gridSum (downscale_data g k) = gridSum g := by
  have hk0 : ((k : ℚ)) ≠ 0 := Nat.cast_ne_zero.mpr (by omega)
  have hcond : ¬((writeDefaultCrs g).lats.length < 2 ∨ (writeDefaultCrs g).lons.length < 2) := by
    rw [writeDefaultCrs_lats, writeDefaultCrs_lons]
    omega
  unfold downscale_data
  rw [if_neg hcond]
  unfold gridSum
  dsimp only
  rw [scaled_rowSums, rowSums_nnRefine, writeDefaultCrs_vals]
  exact mul_div_cancel_left₀ _ (mul_ne_zero hk0 hk0)

/-- Witness for C3 on a concrete two-by-two grid with factor 2. -/
theorem downscale_preserves_total_witness :
    2 ≤ massGrid.lats.length ∧ gridSum (downscale_data massGrid 2) = gridSum massGrid :=
  ⟨by decide, downscale_preserves_total massGrid 2 (by norm_num) (by decide) (by decide)⟩

/-- C9 counterexample: on a CRS-less degenerate grid, downscale_data does
not return the input unchanged: it attaches EPSG:4326 to it. -/
theorem downscale_degenerate_cex :
    (downscale_data degenerateGrid 10).crs ≠ degenerateGrid.crs ∧
    degenerateGrid.lats.length < 2 := by
  constructor
  · decide
  · decide

/-- C9 amended: for a grid with fewer than two samples along either axis,
downscale_data applies no reprojection and no value scaling; it returns the
input with at most the default CRS EPSG:4326 attached when the CRS was
missing, and returns the input itself when a CRS was already attached. -/
theorem downscale_degenerate (g : Grid) (k : Nat)
    (h : g.lats.length < 2 ∨ g.lons.length < 2) :
    downscale_data g k = writeDefaultCrs g ∧
    (downscale_data g k).vals = g.vals ∧
    (downscale_data g k).lats = g.lats ∧
    (downscale_data g k).lons = g.lons ∧
    (g.crs.isSome = true → downscale_data g k = g) := by
  have hcond : ((writeDefaultCrs g).lats.length < 2 ∨ (writeDefaultCrs g).lons.length < 2) := by
    rw [writeDefaultCrs_lats, writeDefaultCrs_lons]
    exact h
  have hmain : downscale_data g k = writeDefaultCrs g := by
    unfold downscale_data
    rw [if_pos hcond]
  refine ⟨hmain, ?_, ?_, ?_, ?_⟩
  · rw [hmain, writeDefaultCrs_vals]
  · rw [hmain, writeDefaultCrs_lats]
  · rw [hmain, writeDefaultCrs_lons]
  · intro hsome
    rw [hmain]
    unfold writeDefaultCrs
    cases hc : g.crs with
    | none => rw [hc] at hsome; simp at hsome
    | some v => simp

/-- Witness for C9 amended on a degenerate grid that already has a CRS. -/
theorem downscale_degenerate_witness :
    degenerateTaggedGrid.lats.length < 2 ∧
    downscale_data degenerateTaggedGrid 10 = degenerateTaggedGrid :=
  ⟨by decide,
   (downscale_degenerate degenerateTaggedGrid 10 (Or.inl (by decide))).2.2.2.2 (by decide)⟩

/-- C4: clipping a grid to a geometry that touches none of its cells does
not fail: it returns a field with the same coordinates, the same row
shapes, and every value equal to zero. -/
theorem clip_nonintersecting (g : Grid) (touches : ℚ → ℚ → Bool) (epsg_code : Nat)
    (h : gridIntersects g touches = false) :
    (clip_yield_to_country g touches epsg_code).lats = g.lats ∧
    (clip_yield_to_country g touches epsg_code).lons = g.lons ∧
    (clip_yield_to_country g touches epsg_code).vals.map List.length
      = g.vals.map List.length ∧
    ∀ row ∈ (clip_yield_to_country g touches epsg_code).vals, ∀ v ∈ row, v = 0 := by
  have hz : clip_yield_to_country g touches epsg_code
      = { g with vals := g.vals.map (fun row => row.map (fun _ => 0)) } := by
    unfold clip_yield_to_country rioClip
    rw [h, if_neg (by simp : ¬(false = true))]
  refine ⟨by rw [hz], by rw [hz], ?_, ?_⟩
  · rw [hz]
    simp
  · rw [hz]
    intro row hrow v hv
    dsimp only at hrow
    rcases List.mem_map.mp hrow with ⟨r0, _, rfl⟩
    rcases List.mem_map.mp hv with ⟨v0, _, rfl⟩
    rfl

/-- Witness for C4 on a concrete grid and the empty geometry. -/
theorem clip_nonintersecting_witness :
    gridIntersects clipGrid emptyTouch = false ∧
    (clip_yield_to_country clipGrid emptyTouch 6933).lats = clipGrid.lats ∧
    ∀ row ∈ (clip_yield_to_country clipGrid emptyTouch 6933).vals, ∀ v ∈ row, v = 0 :=
  ⟨by decide, (clip_nonintersecting clipGrid emptyTouch 6933 (by decide)).1,
   (clip_nonintersecting clipGrid emptyTouch 6933 (by decide)).2.2.2⟩

/-- Every latitude remaining after the where-drop lies strictly inside the
open interval (-90, 90). -/
theorem mem_latList_dropInvalidLat {da : DataArray} {x : ℚ}
    (h : x ∈ latList (dropInvalidLat da)) : -90 < x ∧ x < 90 := by
  unfold latList dropInvalidLat at h
  dsimp only at h
  rcases List.mem_map.mp h with ⟨p, hp, rfl⟩
  rcases List.mem_filter.mp hp with ⟨_, hcond⟩
  simpa using hcond

/-- The latitude validation can fail only with the empty-reduction error or
the post-repair range error. -/
theorem validateLat_error_cases {da : DataArray} {e : AssignCrsError}
    (h : validateLat da = Except.error e) :
    e = AssignCrsError.emptyLatReduce ∨ e = AssignCrsError.invalidLatitude := by
  unfold validateLat at h
  cases h1 : (latList da).min? with
  | none =>
    rw [h1] at h
    cases h2 : (latList da).max? with
    | none => rw [h2] at h; simp at h; exact Or.inl h.symm
    | some mx => rw [h2] at h; simp at h; exact Or.inl h.symm
  | some mn =>
    rw [h1] at h
    cases h2 : (latList da).max? with
    | none => rw [h2] at h; simp at h; exact Or.inl h.symm
    | some mx =>
      rw [h2] at h
      simp only at h
      by_cases hv : mn ≤ -90 ∨ 90 ≤ mx
      · rw [if_pos hv] at h
        cases h3 : (latList (dropInvalidLat da)).min? with
        | none =>
          rw [h3] at h
          cases h4 : (latList (dropInvalidLat da)).max? with
          | none => rw [h4] at h; simp at h; exact Or.inl h.symm
          | some mx2 => rw [h4] at h; simp at h; exact Or.inl h.symm
        | some mn2 =>
          rw [h3] at h
          cases h4 : (latList (dropInvalidLat da)).max? with
          | none => rw [h4] at h; simp at h; exact Or.inl h.symm
          | some mx2 =>
            rw [h4] at h
            simp only at h
            by_cases hv2 : mn2 ≤ -90 ∨ 90 ≤ mx2
            · rw [if_pos hv2] at h
              simp at h
              exact Or.inr h.symm
            · rw [if_neg hv2] at h
              simp at h
      · rw [if_neg hv] at h
        simp at h

/-- The post-repair range error of validateLat is unreachable: after the
where-drop every remaining latitude is strictly inside (-90, 90), so the
re-validation cannot fail on a nonempty remainder. -/
theorem validateLat_ne_invalid (da : DataArray) :
    validateLat da ≠ Except.error AssignCrsError.invalidLatitude := by
  intro h
  unfold validateLat at h
  cases h1 : (latList da).min? with
  | none =>
    rw [h1] at h
    cases h2 : (latList da).max? with
    | none => rw [h2] at h; simp at h
    | some mx => rw [h2] at h; simp at h
  | some mn =>
    rw [h1] at h
    cases h2 : (latList da).max? with
    | none => rw [h2] at h; simp at h
    | some mx =>
      rw [h2] at h
      simp only at h
      by_cases hv : mn ≤ -90 ∨ 90 ≤ mx
      · rw [if_pos hv] at h
        cases h3 : (latList (dropInvalidLat da)).min? with
        | none =>
          rw [h3] at h
          cases h4 : (latList (dropInvalidLat da)).max? with
          | none => rw [h4] at h; simp at h
          | some mx2 => rw [h4] at h; simp at h
        | some mn2 =>
          rw [h3] at h
          cases h4 : (latList (dropInvalidLat da)).max? with
          | none => rw [h4] at h; simp at h
          | some mx2 =>
            rw [h4] at h
            simp only at h
            have hmem2 : mn2 ∈ latList (dropInvalidLat da) :=
              List.min?_mem (fun _ _ => min_choice _ _) h3
            have hmem3 : mx2 ∈ latList (dropInvalidLat da) :=
              List.max?_mem (fun _ _ => max_choice _ _) h4
            have hb2 := mem_latList_dropInvalidLat hmem2
            have hb3 := mem_latList_dropInvalidLat hmem3
            rw [if_neg (by push_neg; exact ⟨by linarith [hb2.1], by linarith [hb3.2]⟩ :
              ¬(mn2 ≤ -90 ∨ 90 ≤ mx2))] at h
            simp at h
      · rw [if_neg hv] at h
        simp at h

/-- A grid whose latitude range is valid passes validation unchanged. -/
theorem validateLat_of_valid {da : DataArray} (h : latRangeValid da = true) :
    validateLat da = Except.ok da := by
  unfold latRangeValid at h
  unfold validateLat
  cases h1 : (latList da).min? with
  | none => rw [h1] at h; simp at h
  | some mn =>
    rw [h1] at h
    cases h2 : (latList da).max? with
    | none => rw [h2] at h; simp at h
    | some mx =>
      rw [h2] at h
      simp only [Bool.and_eq_true, decide_eq_true_eq] at h
      dsimp only
      rw [if_neg (by push_neg; exact ⟨by linarith [h.1], by linarith [h.2]⟩ :
        ¬(mn ≤ -90 ∨ 90 ≤ mx))]

/-- Validation returns either the input array or its where-dropped version. -/
theorem validateLat_ok_cases {da da2 : DataArray} (h : validateLat da = Except.ok da2) :
    da2 = da ∨ da2 = dropInvalidLat da := by
  unfold validateLat at h
  cases h1 : (latList da).min? with
  | none =>
    rw [h1] at h
    cases h2 : (latList da).max? with
    | none => rw [h2] at h; simp at h
    | some mx => rw [h2] at h; simp at h
  | some mn =>
    rw [h1] at h
    cases h2 : (latList da).max? with
    | none => rw [h2] at h; simp at h
    | some mx =>
      rw [h2] at h
      simp only at h
      by_cases hv : mn ≤ -90 ∨ 90 ≤ mx
      · rw [if_pos hv] at h
        cases h3 : (latList (dropInvalidLat da)).min? with
        | none =>
          rw [h3] at h
          cases h4 : (latList (dropInvalidLat da)).max? with
          | none => rw [h4] at h; simp at h
          | some mx2 => rw [h4] at h; simp at h
        | some mn2 =>
          rw [h3] at h
          cases h4 : (latList (dropInvalidLat da)).max? with
          | none => rw [h4] at h; simp at h
          | some mx2 =>
            rw [h4] at h
            simp only at h
            by_cases hv2 : mn2 ≤ -90 ∨ 90 ≤ mx2
            · rw [if_pos hv2] at h; simp at h
            · rw [if_neg hv2] at h
              simp at h
              exact Or.inr h.symm
      · rw [if_neg hv] at h
        simp at h
        exact Or.inl h.symm

/-- Validation does not touch the dimension names. -/
theorem validateLat_ok_dims {da da2 : DataArray} (h : validateLat da = Except.ok da2) :
    da2.dims = da.dims := by
  rcases validateLat_ok_cases h with rfl | rfl
  · rfl
  · rfl

/-- A nonempty list of rationals has a minimum. -/
theorem min?_isSome_of_ne_nil {l : List ℚ} (h : l ≠ []) : ∃ mn, l.min? = some mn := by
  cases l with
  | nil => exact absurd rfl h
  | cons x xs => exact ⟨_, rfl⟩

/-- A nonempty list of rationals has a maximum. -/
theorem max?_isSome_of_ne_nil {l : List ℚ} (h : l ≠ []) : ∃ mx, l.max? = some mx := by
  cases l with
  | nil => exact absurd rfl h
  | cons x xs => exact ⟨_, rfl⟩

/-- An invalid latitude range means the minimum or the maximum violates the
open bounds. -/
theorem latRange_invalid {da : DataArray} {mn mx : ℚ}
    (hmin : (latList da).min? = some mn) (hmax : (latList da).max? = some mx)
    (hbad : latRangeValid da = false) : mn ≤ -90 ∨ 90 ≤ mx := by
  by_contra hno
  push_neg at hno
  have htrue : latRangeValid da = true := by
    unfold latRangeValid
    rw [hmin, hmax]
    simp only [Bool.and_eq_true, decide_eq_true_eq]
    exact ⟨by linarith [hno.1], by linarith [hno.2]⟩
  rw [htrue] at hbad
  cases hbad

/-- A grid with a nonempty invalid latitude range whose where-drop leaves a
nonempty remainder passes validation with the dropped array: the single
re-validation always succeeds there. -/
theorem validateLat_repair_ok {da : DataArray} (hne : latList da ≠ [])
    (hbad : latRangeValid da = false) (hne2 : latList (dropInvalidLat da) ≠ []) :
    validateLat da = Except.ok (dropInvalidLat da) := by
  obtain ⟨mn, hmin⟩ := min?_isSome_of_ne_nil hne
  obtain ⟨mx, hmax⟩ := max?_isSome_of_ne_nil hne
  obtain ⟨mn2, hmin2⟩ := min?_isSome_of_ne_nil hne2
  obtain ⟨mx2, hmax2⟩ := max?_isSome_of_ne_nil hne2
  have hcond := latRange_invalid hmin hmax hbad
  have hb2 := mem_latList_dropInvalidLat (List.min?_mem (fun _ _ => min_choice _ _) hmin2)
  have hb3 := mem_latList_dropInvalidLat (List.max?_mem (fun _ _ => max_choice _ _) hmax2)
  unfold validateLat
  rw [hmin, hmax]
  dsimp only
  rw [if_pos hcond, hmin2, hmax2]
  dsimp only
  rw [if_neg (by push_neg; exact ⟨by linarith [hb2.1], by linarith [hb3.2]⟩ :
    ¬(mn2 ≤ -90 ∨ 90 ≤ mx2))]

/-- A grid with a nonempty invalid latitude range whose where-drop leaves
nothing fails validation in the min reduction over the empty remainder. -/
theorem validateLat_empty_after_drop {da : DataArray} (hne : latList da ≠ [])
    (hbad : latRangeValid da = false) (hemp : latList (dropInvalidLat da) = []) :
    validateLat da = Except.error AssignCrsError.emptyLatReduce := by
  obtain ⟨mn, hmin⟩ := min?_isSome_of_ne_nil hne
  obtain ⟨mx, hmax⟩ := max?_isSome_of_ne_nil hne
  have hcond := latRange_invalid hmin hmax hbad
  unfold validateLat
  rw [hmin, hmax]
  dsimp only
  rw [if_pos hcond]
  rw [show (latList (dropInvalidLat da)).min? = none from by rw [hemp]; rfl]

/-- C6 counterexample: a data array whose latitude coordinate and dimension
are present with a valid range, but which has no longitude dimension, makes
assign_crs fail with the spatial-dimension error, while the claim says it
should succeed. -/
theorem assign_crs_missing_lon_dim_cex :
    assign_crs lonlessDataArray 6933 = Except.error AssignCrsError.missingSpatialDims ∧
    "lat" ∈ lonlessDataArray.coords ∧ "lat" ∈ lonlessDataArray.dims ∧
    latRangeValid lonlessDataArray = true := by
  refine ⟨by decide, by decide, by decide, by decide⟩

/-- C6 amended: assign_crs fails with the KeyError (MissingDimension) error
exactly when lat is absent from the coordinates; the post-repair
InvalidGeometry error is unreachable, because the where-drop leaves only
latitudes strictly inside (-90, 90) and an empty remainder fails in the
min-reduction instead; every success means lat and lon are both dimensions
and the EPSG code was attached; a grid with lat among its coordinates, a
valid latitude range, and both spatial dimensions succeeds with the EPSG
code attached and no other change; a grid with a nonempty invalid latitude
range whose repair leaves a nonempty remainder succeeds with exactly the
invalid rows dropped and the EPSG code attached; and a grid whose repair
drops every row fails in the min reduction over the empty remainder. -/
theorem assign_crs_characterization (da : DataArray) (epsg_code : Nat) :
    (assign_crs da epsg_code = Except.error AssignCrsError.missingLatCoord ↔
      "lat" ∉ da.coords) ∧
    assign_crs da epsg_code ≠ Except.error AssignCrsError.invalidLatitude ∧
    (∀ da2, assign_crs da epsg_code = Except.ok da2 →
      "lat" ∈ da.dims ∧ "lon" ∈ da.dims ∧ da2.crs = some epsg_code) ∧
    ("lat" ∈ da.coords → "lat" ∈ da.dims → "lon" ∈ da.dims → latRangeValid da = true →
      assign_crs da epsg_code = Except.ok { da with crs := some epsg_code }) ∧
    ("lat" ∈ da.coords → latList da ≠ [] → latRangeValid da = false →
      latList (dropInvalidLat da) ≠ [] → "lat" ∈ da.dims → "lon" ∈ da.dims →
      assign_crs da epsg_code = Except.ok { dropInvalidLat da with crs := some epsg_code }) ∧
    ("lat" ∈ da.coords → latList da ≠ [] → latRangeValid da = false →
      latList (dropInvalidLat da) = [] →
      assign_crs da epsg_code = Except.error AssignCrsError.emptyLatReduce) := by
  by_cases hc : "lat" ∈ da.coords
  · have hne : ¬("lat" ∉ da.coords) := not_not_intro hc
    have hbody : assign_crs da epsg_code =
        match validateLat da with
        | Except.error e => Except.error e
        | Except.ok da3 =>
          if "lat" ∉ da3.dims ∨ "lon" ∉ da3.dims then
            Except.error AssignCrsError.missingSpatialDims
          else Except.ok { da3 with crs := some epsg_code } := by
      unfold assign_crs
      rw [if_neg hne]
    refine ⟨?_, ?_, ?_, ?_, ?_, ?_⟩
    · rw [hbody]
      constructor
      · intro h
        exfalso
        cases hV : validateLat da with
        | error e =>
          rw [hV] at h
          simp only [Except.error.injEq] at h
          subst h
          rcases validateLat_error_cases hV with he | he <;> exact AssignCrsError.noConfusion he
        | ok da3 =>
          rw [hV] at h
          dsimp only at h
          by_cases hd : "lat" ∉ da3.dims ∨ "lon" ∉ da3.dims
          · rw [if_pos hd] at h
            simp at h
          · rw [if_neg hd] at h
            simp at h
      · intro h
        exact absurd hc h
    · rw [hbody]
      intro h
      cases hV : validateLat da with
      | error e =>
        rw [hV] at h
        simp only [Except.error.injEq] at h
        exact validateLat_ne_invalid da (h ▸ hV)
      | ok da3 =>
        rw [hV] at h
        dsimp only at h
        by_cases hd : "lat" ∉ da3.dims ∨ "lon" ∉ da3.dims
        · rw [if_pos hd] at h
          simp at h
        · rw [if_neg hd] at h
          simp at h
    · intro da2 h
      rw [hbody] at h
      cases hV : validateLat da with
      | error e =>
        rw [hV] at h
        simp at h
      | ok da3 =>
        rw [hV] at h
        dsimp only at h
        by_cases hd : "lat" ∉ da3.dims ∨ "lon" ∉ da3.dims
        · rw [if_pos hd] at h
          simp at h
        · rw [if_neg hd] at h
          simp only [Except.ok.injEq] at h
          push_neg at hd
          have hdims := validateLat_ok_dims hV
          subst h
          exact ⟨hdims ▸ hd.1, hdims ▸ hd.2, rfl⟩
    · intro _ hlatd hlond hvalid
      rw [hbody, validateLat_of_valid hvalid]
      dsimp only
      rw [if_neg (by push_neg; exact ⟨hlatd, hlond⟩ :
        ¬("lat" ∉ da.dims ∨ "lon" ∉ da.dims))]
    · intro _ hnonempty hbad hne2 hlatd hlond
      rw [hbody, validateLat_repair_ok hnonempty hbad hne2]
      dsimp only
      rw [if_neg (by push_neg; exact ⟨hlatd, hlond⟩ :
        ¬("lat" ∉ (dropInvalidLat da).dims ∨ "lon" ∉ (dropInvalidLat da).dims))]
    · intro _ hnonempty hbad hemp
      rw [hbody, validateLat_empty_after_drop hnonempty hbad hemp]
  · have hmain : assign_crs da epsg_code = Except.error AssignCrsError.missingLatCoord := by
      unfold assign_crs
      rw [if_pos hc]
    refine ⟨⟨fun _ => hc, fun _ => hmain⟩, ?_, ?_, ?_, ?_, ?_⟩
    · rw [hmain]
      simp
    · intro da2 h
      rw [hmain] at h
      simp at h
    · intro hx
      exact absurd hx hc
    · intro hx
      exact absurd hx hc
    · intro hx
      exact absurd hx hc

/-- Witness for C6 amended: a well-formed data array gets the EPSG code, a
data array with one pole row succeeds after the repair drop, and a data
array whose rows are all invalid fails in the empty min reduction. -/
theorem assign_crs_characterization_witness :
    assign_crs goodDataArray 6933 = Except.ok { goodDataArray with crs := some 6933 } ∧
    assign_crs repairDataArray 6933
      = Except.ok { dropInvalidLat repairDataArray with crs := some 6933 } ∧
    assign_crs allInvalidDataArray 6933 = Except.error AssignCrsError.emptyLatReduce :=
  ⟨(assign_crs_characterization goodDataArray 6933).2.2.2.1
      (by decide) (by decide) (by decide) (by decide),
   (assign_crs_characterization repairDataArray 6933).2.2.2.2.1
      (by decide) (by decide) (by decide) (by decide) (by decide) (by decide),
   (assign_crs_characterization allInvalidDataArray 6933).2.2.2.2.2
      (by decide) (by decide) (by decide) (by decide)⟩

/-- C7: the aggregated CSV of a scenario is written exactly when more than
one crop/grass file pair produced a merged result, and a scenario with at
most one pair never writes it. -/
theorem aggregated_csv_iff (s : ScenarioInput) :
    (aggregatedCsvWritten s = true ↔ 1 < combinedResultsCount s) ∧
    (s.pairs.length ≤ 1 → aggregatedCsvWritten s = false) := by
  constructor
  · simp [aggregatedCsvWritten]
  · intro h
    have hle : combinedResultsCount s ≤ s.pairs.length := by
      unfold combinedResultsCount process_scenario
      calc (s.pairs.map (processPair s.controlCropsHaveYield s.controlGrassesHaveYield)).countP
            (fun t => t.pairCsvWritten)
          ≤ (s.pairs.map (processPair s.controlCropsHaveYield s.controlGrassesHaveYield)).length :=
            List.countP_le_length _
        _ = s.pairs.length := List.length_map _ _
    simp only [aggregatedCsvWritten, decide_eq_false_iff_not]
    omega

/-- Witness for C7 on a single-pair scenario. -/
theorem aggregated_csv_iff_witness : aggregatedCsvWritten cropFailScenario = false :=
  (aggregated_csv_iff cropFailScenario).2 (by decide)

/-- C8 counterexample: in a scenario whose only pair has a grass dataset
with a yield variable but a crop dataset without one, the grass track is not
processed, while the claim says it should still be. -/
theorem crop_failure_skips_grass_cex :
    ((process_scenario cropFailScenario).getD 0 default).grassProcessed = false ∧
    (cropFailScenario.pairs.getD 0 default).grassHasYield = true ∧
    (process_scenario cropFailScenario).length = 1 := by
  refine ⟨by decide, by decide, by decide⟩

/-- C8 amended: a crop dataset without the yield variable, or a crop control
dataset without it, aborts the whole pair: neither track runs and no
per-pair CSV is written for it; the orchestrator still examines every pair
of the scenario, one trace per configured pair. -/
theorem crop_track_failure_behavior (cc cg : Bool) (p : PairFlags) (s : ScenarioInput) :
    (p.cropHasYield = false ∨ cc = false →
      processPair cc cg p =
        { cropProcessed := false, grassProcessed := false, pairCsvWritten := false }) ∧
    (process_scenario s).length = s.pairs.length := by
  constructor
  · intro h
    rcases h with h | h <;> simp [processPair, h]
  · simp [process_scenario]

/-- Witness for C8 amended: one pair whose crop dataset lacks the yield
variable, and one pair whose crop control datasets lack it. -/
theorem crop_track_failure_behavior_witness :
    processPair true true { cropHasYield := false, grassHasYield := true }
      = { cropProcessed := false, grassProcessed := false, pairCsvWritten := false } ∧
    processPair false true { cropHasYield := true, grassHasYield := true }
      = { cropProcessed := false, grassProcessed := false, pairCsvWritten := false } :=
  ⟨(crop_track_failure_behavior true true { cropHasYield := false, grassHasYield := true }
      cropFailScenario).1 (Or.inl rfl),
   (crop_track_failure_behavior false true { cropHasYield := true, grassHasYield := true }
      cropFailScenario).1 (Or.inr rfl)⟩

/-- C10: main only processes the configured scenarios from index 5 on: a
configuration with five or fewer scenarios processes nothing and writes no
CSV, the processed list is the drop of the first five entries position by
position, and its length is the scenario count minus five. -/
theorem main_scenario_slice (scenarios : List ScenarioInput) :
    (scenarios.length ≤ 5 →
      mainProcessedScenarios scenarios = [] ∧ mainCsvCount scenarios = 0) ∧
    (∀ j, (mainProcessedScenarios scenarios)[j]? = scenarios[5 + j]?) ∧
    (mainProcessedScenarios scenarios).length = scenarios.length - 5 := by
  refine ⟨fun h => ?_, fun j => ?_, ?_⟩
  · have hnil : mainProcessedScenarios scenarios = [] := by
      unfold mainProcessedScenarios
      exact List.drop_eq_nil_of_le h
    refine ⟨hnil, ?_⟩
    unfold mainCsvCount
    rw [hnil]
    rfl
  · unfold mainProcessedScenarios
    exact List.getElem?_drop scenarios 5 j
  · simp [mainProcessedScenarios]

/-- Witness for C10 on a two-scenario configuration. -/
theorem main_scenario_slice_witness :
    mainProcessedScenarios [cropFailScenario, cropFailScenario] = [] ∧
    mainCsvCount [cropFailScenario, cropFailScenario] = 0 :=
  (main_scenario_slice [cropFailScenario, cropFailScenario]).1 (by decide)

end YieldChange
